import Mathlib

/-!
# Verification of the FitHub workout classification engine

Shallow embedding of `src/client/src/components/WorkoutTrainer.tsx`
(the later of the two component versions contained in that file, the one
with `formFlags`; lines 600-1079).  Pure per-frame processor functions are
translated as Lean functions; the mutable refs (`metricsRef`,
`lastRepAtRef`) become explicit state passed through and returned.
Timestamps and joint angles are rationals (the code works with JS numbers;
every comparison the claims exercise is on exact small values, which ℚ
represents faithfully and computably).  The geometry utility
`calculateAngle`, which uses `Math.atan2`, is embedded over the reals
using `Complex.arg`.
-/

namespace FitHub

/-- The `stage` field of `ExerciseMetrics`: `'up' | 'down' | 'ready'`. -/
inductive Stage where
  | ready
  | up
  | down
deriving DecidableEq, Repr

/-- The `FormFlags` interface.  In the source all three fields are optional
booleans and are only ever consumed by truthiness tests, so an absent field
is behaviourally `false`; `{}` (all fields absent) is the all-`false`
record. -/
structure FormFlags where
  isDeepEnough : Bool := false
  isFullyUp : Bool := false
  isBackStraight : Bool := false
deriving DecidableEq, Repr

/-- The `ExerciseMetrics` interface (the session state every processor reads
and rewrites). -/
structure ExerciseMetrics where
  reps : Nat
  stage : Stage
  goodReps : Nat
  feedback : List String
  formFlags : FormFlags
  timer : Nat
  isTimerRunning : Bool
deriving DecidableEq, Repr

/-- The all-zero metrics record used by the `useState` initializer, by
`resetWorkout`, and by the exercise-change effect:
`{ reps: 0, stage: 'ready', goodReps: 0, feedback: [], formFlags: {},
timer: 0, isTimerRunning: false }`. -/
def baseMetrics : ExerciseMetrics :=
  { reps := 0, stage := Stage.ready, goodReps := 0, feedback := [],
    formFlags := {}, timer := 0, isTimerRunning := false }

/-- Session state as seen by the engine: the metrics record together with
the `lastRepAtRef` mutable ref (timestamp in milliseconds of the last
accepted repetition). -/
def initialSession : ExerciseMetrics × ℚ := (baseMetrics, 0)

/-- `resetWorkout` restores `baseMetrics` and sets `lastRepAtRef.current = 0`
(WorkoutTrainer.tsx lines 1054-1068); this is its effect on the engine
state. -/
def resetWorkout : ExerciseMetrics × ℚ := (baseMetrics, 0)

/-- The cooldown / debounce gate `tryCount` (lines 707-717).  The source
mutates `next` and `lastRepAtRef.current` in place; here the updated
metrics and updated `lastRepAt` are returned as a pair.  On rejection both
are returned unchanged. -/
def tryCount (next : ExerciseMetrics) (lastRepAt now cooldownMs : ℚ) :
    ExerciseMetrics × ℚ :=
  if now - lastRepAt > cooldownMs then
    ({ next with
        reps := next.reps + 1,
        goodReps :=
          if next.formFlags.isDeepEnough && next.formFlags.isFullyUp then
            next.goodReps + 1
          else next.goodReps,
        feedback :=
          if next.formFlags.isDeepEnough && next.formFlags.isFullyUp then
            ["Good form!"]
          else next.feedback,
        formFlags := {} }, now)
  else
    (next, lastRepAt)

/-- `nextBicepCurl` (lines 719-740).  `elbowAngle` is the combined angle
`min (calculateAngle L_shoulder L_elbow L_wrist)
     (calculateAngle R_shoulder R_elbow R_wrist)` of the frame; `now` is
`performance.now()` at the frame. -/
def nextBicepCurl (elbowAngle : ℚ) (prev : ExerciseMetrics)
    (lastRepAt now : ℚ) : ExerciseMetrics × ℚ :=
  let next := prev
  let next :=
    if elbowAngle > 150 then
      { next with stage := Stage.down,
                  formFlags := { next.formFlags with isFullyUp := true } }
    else next
  if prev.stage = Stage.down ∧ elbowAngle < 50 then
    let next := { next with stage := Stage.up }
    let next :=
      if elbowAngle < 40 then
        { next with formFlags := { next.formFlags with isDeepEnough := true } }
      else
        { next with feedback := ["Curl a little higher."] }
    tryCount next lastRepAt now 350
  else
    (next, lastRepAt)

/-- Fold a bicep-curl frame sequence (pairs of combined elbow angle and
frame timestamp) through `nextBicepCurl`. -/
def runBicep (frames : List (ℚ × ℚ)) (s : ExerciseMetrics × ℚ) :
    ExerciseMetrics × ℚ :=
  frames.foldl (fun st p => nextBicepCurl p.1 st.1 st.2 p.2) s

/-- `nextSquats` (lines 742-763).  `kneeAngle` is the min of the left and
right hip-knee-ankle angles. -/
def nextSquats (kneeAngle : ℚ) (prev : ExerciseMetrics)
    (lastRepAt now : ℚ) : ExerciseMetrics × ℚ :=
  let next := prev
  let next :=
    if kneeAngle > 160 then
      { next with stage := Stage.up,
                  formFlags := { next.formFlags with isFullyUp := true } }
    else next
  if prev.stage = Stage.up ∧ kneeAngle < 120 then
    let next := { next with stage := Stage.down }
    let next :=
      if kneeAngle < 100 then
        { next with formFlags := { next.formFlags with isDeepEnough := true } }
      else
        { next with feedback := ["Go a bit deeper."] }
    tryCount next lastRepAt now 450
  else
    (next, lastRepAt)

/-- `nextPushups` (lines 765-795).  `elbowAngle` is the min of the left and
right shoulder-elbow-wrist angles; `bodyAngle` is the single
shoulder-hip-ankle angle (landmarks 12, 24, 28).  The posture check runs
every frame first; the cooldown gate is consulted only when
`next.formFlags.isBackStraight` is set. -/
def nextPushups (elbowAngle bodyAngle : ℚ) (prev : ExerciseMetrics)
    (lastRepAt now : ℚ) : ExerciseMetrics × ℚ :=
  let next := prev
  let next :=
    if bodyAngle < 155 ∨ bodyAngle > 205 then
      { next with feedback := ["Keep your body straight!"],
                  formFlags := { next.formFlags with isBackStraight := false } }
    else
      { next with formFlags := { next.formFlags with isBackStraight := true } }
  let next :=
    if elbowAngle > 150 then
      { next with stage := Stage.up,
                  formFlags := { next.formFlags with isFullyUp := true } }
    else next
  if prev.stage = Stage.up ∧ elbowAngle < 110 then
    let next := { next with stage := Stage.down }
    let next :=
      if elbowAngle < 100 then
        { next with formFlags := { next.formFlags with isDeepEnough := true } }
      else
        { next with feedback := ["Go a bit lower."] }
    if next.formFlags.isBackStraight then
      tryCount next lastRepAt now 450
    else
      (next, lastRepAt)
  else
    (next, lastRepAt)

/-- `nextLunges` (lines 797-818).  `frontKneeAngle` is the left
hip-knee-ankle angle, `backKneeAngle` the right one. -/
def nextLunges (frontKneeAngle backKneeAngle : ℚ) (prev : ExerciseMetrics)
    (lastRepAt now : ℚ) : ExerciseMetrics × ℚ :=
  let next := prev
  let next :=
    if frontKneeAngle > 150 ∧ backKneeAngle > 150 then
      { next with stage := Stage.up,
                  formFlags := { next.formFlags with isFullyUp := true } }
    else next
  if prev.stage = Stage.up ∧ (frontKneeAngle < 120 ∨ backKneeAngle < 120) then
    let next := { next with stage := Stage.down }
    let next :=
      if frontKneeAngle < 110 ∧ backKneeAngle < 110 then
        { next with formFlags := { next.formFlags with isDeepEnough := true } }
      else
        { next with feedback := ["Lower your hips."] }
    tryCount next lastRepAt now 500
  else
    (next, lastRepAt)

/-- `nextOverheadPress` (lines 820-840).  `elbowAngle` is the min of the
left and right shoulder-elbow-wrist angles. -/
def nextOverheadPress (elbowAngle : ℚ) (prev : ExerciseMetrics)
    (lastRepAt now : ℚ) : ExerciseMetrics × ℚ :=
  let next := prev
  let next :=
    if elbowAngle < 110 then
      { next with stage := Stage.down,
                  formFlags := { next.formFlags with isDeepEnough := true } }
    else next
  if prev.stage = Stage.down ∧ elbowAngle > 140 then
    let next := { next with stage := Stage.up }
    let next :=
      if elbowAngle > 150 then
        { next with formFlags := { next.formFlags with isFullyUp := true } }
      else
        { next with feedback := ["Extend arms fully!"] }
    tryCount next lastRepAt now 350
  else
    (next, lastRepAt)

/-- `nextLateralRaises` (lines 842-867).  `shoulderAngle` is the max of the
left and right hip-shoulder-elbow angles; `elbowAngle` the min of the left
and right shoulder-elbow-wrist angles (used only for the
"Keep arms straighter!" advisory). -/
def nextLateralRaises (shoulderAngle elbowAngle : ℚ) (prev : ExerciseMetrics)
    (lastRepAt now : ℚ) : ExerciseMetrics × ℚ :=
  let next := prev
  let next :=
    if elbowAngle < 140 then
      { next with feedback := ["Keep arms straighter!"] }
    else next
  let next :=
    if shoulderAngle < 40 then
      { next with stage := Stage.down,
                  formFlags := { next.formFlags with isDeepEnough := true } }
    else next
  if prev.stage = Stage.down ∧ shoulderAngle > 60 then
    let next := { next with stage := Stage.up }
    let next :=
      if shoulderAngle > 75 then
        { next with formFlags := { next.formFlags with isFullyUp := true } }
      else
        { next with feedback := ["Raise a little higher."] }
    tryCount next lastRepAt now 500
  else
    (next, lastRepAt)

/-- `nextPullups` (lines 869-888).  `wristY` is the min of the left and
right wrist y-coordinates, `shoulderY` the min of the left and right
shoulder y-coordinates. -/
def nextPullups (wristY shoulderY : ℚ) (prev : ExerciseMetrics)
    (lastRepAt now : ℚ) : ExerciseMetrics × ℚ :=
  let next := prev
  let next :=
    if wristY > shoulderY then
      { next with stage := Stage.down,
                  formFlags := { next.formFlags with isFullyUp := true } }
    else next
  if prev.stage = Stage.down ∧ wristY < shoulderY then
    let next := { next with stage := Stage.up }
    let next :=
      if wristY < shoulderY - 1/20 then
        { next with formFlags := { next.formFlags with isDeepEnough := true } }
      else
        { next with feedback := ["Pull higher!"] }
    tryCount next lastRepAt now 600
  else
    (next, lastRepAt)

/-- `nextGluteBridges` (lines 890-908).  `hipAngle` is the max of the left
and right shoulder-hip-knee angles. -/
def nextGluteBridges (hipAngle : ℚ) (prev : ExerciseMetrics)
    (lastRepAt now : ℚ) : ExerciseMetrics × ℚ :=
  let next := prev
  let next :=
    if hipAngle < 140 then
      { next with stage := Stage.down,
                  formFlags := { next.formFlags with isDeepEnough := true } }
    else next
  if prev.stage = Stage.down ∧ hipAngle > 150 then
    let next := { next with stage := Stage.up }
    let next :=
      if hipAngle > 155 then
        { next with formFlags := { next.formFlags with isFullyUp := true } }
      else
        { next with feedback := ["Extend your hips fully."] }
    tryCount next lastRepAt now 500
  else
    (next, lastRepAt)

/-- `nextCrunches` (lines 910-928).  `hipAngle` is the min of the left and
right shoulder-hip-knee angles. -/
def nextCrunches (hipAngle : ℚ) (prev : ExerciseMetrics)
    (lastRepAt now : ℚ) : ExerciseMetrics × ℚ :=
  let next := prev
  let next :=
    if hipAngle > 115 then
      { next with stage := Stage.down,
                  formFlags := { next.formFlags with isDeepEnough := true } }
    else next
  if prev.stage = Stage.down ∧ hipAngle < 110 then
    let next := { next with stage := Stage.up }
    let next :=
      if hipAngle < 105 then
        { next with formFlags := { next.formFlags with isFullyUp := true } }
      else
        { next with feedback := ["Crunch a little higher."] }
    tryCount next lastRepAt now 400
  else
    (next, lastRepAt)

/-- `nextPlank` (lines 930-942), the isometric processor.  `bodyAngle` is
the single shoulder-hip-ankle angle (landmarks 12, 24, 28).  It neither
counts repetitions nor consults the cooldown gate. -/
def nextPlank (bodyAngle : ℚ) (prev : ExerciseMetrics) : ExerciseMetrics :=
  if bodyAngle > 155 ∧ bodyAngle < 205 then
    { prev with isTimerRunning := true, feedback := ["Good form! Hold it."] }
  else
    { prev with isTimerRunning := false, feedback := ["Straighten your back!"] }

/-- The exercise identifiers of the `exerciseProcessors` dispatch table
(lines 944-955). -/
inductive ExerciseId where
  | bicep_curl
  | squats
  | pushups
  | lunges
  | overhead_press
  | lateral_raises
  | pullups
  | glute_bridges
  | crunches
  | plank
deriving DecidableEq, Repr

/-- The per-frame quantities each processor derives from a landmark frame
via `land` and `calculateAngle`: left/right shoulder-elbow-wrist angles,
left/right hip-knee-ankle angles, left/right hip-shoulder-elbow angles,
left/right shoulder-hip-knee angles, the shoulder-hip-ankle body angle,
and the min wrist / shoulder y-coordinates.  A frame with landmarks
determines all of them. -/
structure FrameInputs where
  elbowL : ℚ
  elbowR : ℚ
  kneeL : ℚ
  kneeR : ℚ
  shoulderL : ℚ
  shoulderR : ℚ
  hipL : ℚ
  hipR : ℚ
  body : ℚ
  wristY : ℚ
  shoulderY : ℚ
deriving DecidableEq, Repr

/-- Dispatch through the `exerciseProcessors` table: apply the processor
registered for the given exercise id, deriving each processor's combined
angle(s) from the frame exactly as the source does (`Math.min` /
`Math.max` across the left/right variants). -/
def applyProcessor (ex : ExerciseId) (f : FrameInputs)
    (s : ExerciseMetrics × ℚ) (now : ℚ) : ExerciseMetrics × ℚ :=
  match ex with
  | ExerciseId.bicep_curl => nextBicepCurl (min f.elbowL f.elbowR) s.1 s.2 now
  | ExerciseId.squats => nextSquats (min f.kneeL f.kneeR) s.1 s.2 now
  | ExerciseId.pushups => nextPushups (min f.elbowL f.elbowR) f.body s.1 s.2 now
  | ExerciseId.lunges => nextLunges f.kneeL f.kneeR s.1 s.2 now
  | ExerciseId.overhead_press =>
      nextOverheadPress (min f.elbowL f.elbowR) s.1 s.2 now
  | ExerciseId.lateral_raises =>
      nextLateralRaises (max f.shoulderL f.shoulderR) (min f.elbowL f.elbowR)
        s.1 s.2 now
  | ExerciseId.pullups => nextPullups f.wristY f.shoulderY s.1 s.2 now
  | ExerciseId.glute_bridges => nextGluteBridges (max f.hipL f.hipR) s.1 s.2 now
  | ExerciseId.crunches => nextCrunches (min f.hipL f.hipR) s.1 s.2 now
  | ExerciseId.plank => (nextPlank f.body s.1, s.2)

/-- The update loop `onPoseResults` (lines 957-972) restricted to its
effect on the classification state.  `landmarks = none` models a frame
with no detection (`results.poseLandmarks` falsy); `selected = none`
models no / an unknown exercise selection, for which the source looks up
`exerciseProcessors[...]` and falls through leaving only the copied state.
When the session is inactive or there are no landmarks, only drawing
happens: the metrics and `lastRepAtRef` are untouched. -/
def onPoseResults (active : Bool) (selected : Option ExerciseId)
    (landmarks : Option FrameInputs) (s : ExerciseMetrics × ℚ) (now : ℚ) :
    ExerciseMetrics × ℚ :=
  match landmarks with
  | none => s
  | some f =>
      if active then
        match selected with
        | some ex => applyProcessor ex f s now
        | none => s
      else s

/-- One frame update of the session state by some exercise processor, with
arbitrary frame-derived angle inputs and an arbitrary frame timestamp. -/
inductive ProcStep : ExerciseMetrics × ℚ → ExerciseMetrics × ℚ → Prop where
  | step (s : ExerciseMetrics × ℚ) (ex : ExerciseId) (f : FrameInputs)
      (now : ℚ) : ProcStep s (applyProcessor ex f s now)

/-- A session state is reachable when some finite sequence of processor
frame updates leads to it from the all-zero initial state. -/
def Reachable (s : ExerciseMetrics × ℚ) : Prop :=
  Relation.ReflTransGen ProcStep initialSession s

/-- One frame update by a dynamic-exercise processor whose combined
angle(s) lie strictly between that exercise's two relaxed thresholds
(`T_enter` and `T_exit`), so that neither relaxed threshold is crossed.
For push-ups the body angle is unconstrained (it cannot cause a count);
for lateral raises the elbow angle is unconstrained (it only triggers an
advisory); for pull-ups the two thresholds coincide (`wristY` strictly
between `shoulderY` and `shoulderY`), so that case is vacuous. -/
inductive BandStep : ExerciseMetrics × ℚ → ExerciseMetrics × ℚ → Prop where
  | bicep (s : ExerciseMetrics × ℚ) (a now : ℚ)
      (h1 : 50 < a) (h2 : a < 150) :
      BandStep s (nextBicepCurl a s.1 s.2 now)
  | squats (s : ExerciseMetrics × ℚ) (a now : ℚ)
      (h1 : 120 < a) (h2 : a < 160) :
      BandStep s (nextSquats a s.1 s.2 now)
  | pushups (s : ExerciseMetrics × ℚ) (a b now : ℚ)
      (h1 : 110 < a) (h2 : a < 150) :
      BandStep s (nextPushups a b s.1 s.2 now)
  | lunges (s : ExerciseMetrics × ℚ) (a b now : ℚ)
      (h1 : 120 < a) (h2 : a < 150) (h3 : 120 < b) (h4 : b < 150) :
      BandStep s (nextLunges a b s.1 s.2 now)
  | overhead (s : ExerciseMetrics × ℚ) (a now : ℚ)
      (h1 : 110 < a) (h2 : a < 140) :
      BandStep s (nextOverheadPress a s.1 s.2 now)
  | lateral (s : ExerciseMetrics × ℚ) (a b now : ℚ)
      (h1 : 40 < a) (h2 : a < 60) :
      BandStep s (nextLateralRaises a b s.1 s.2 now)
  | pullups (s : ExerciseMetrics × ℚ) (w y now : ℚ)
      (h1 : y < w) (h2 : w < y) :
      BandStep s (nextPullups w y s.1 s.2 now)
  | glute (s : ExerciseMetrics × ℚ) (a now : ℚ)
      (h1 : 140 < a) (h2 : a < 150) :
      BandStep s (nextGluteBridges a s.1 s.2 now)
  | crunches (s : ExerciseMetrics × ℚ) (a now : ℚ)
      (h1 : 110 < a) (h2 : a < 115) :
      BandStep s (nextCrunches a s.1 s.2 now)

/-- `Math.atan2 y x` modelled over the reals: the argument of the complex
number `x + y*i`, which lies in `(-π, π]` and is `0` at the origin,
exactly like the JavaScript function on real (non-NaN, non-`-0`)
inputs. -/
noncomputable def atan2 (y x : ℝ) : ℝ :=
  Complex.arg { re := x, im := y }

/-- The geometry utility `calculateAngle` (lines 698-702): the absolute
difference of the directions from the vertex `b` to `c` and from `b` to
`a`, converted to degrees, then folded into `[0, 180]` (`angle > 180 ?
360 - angle : angle`).  Points are 2D (`[x, y]` pairs in the source). -/
noncomputable def calculateAngle (a b c : ℝ × ℝ) : ℝ :=
  let radians := atan2 (c.2 - b.2) (c.1 - b.1) - atan2 (a.2 - b.2) (a.1 - b.1)
  let angle := |radians * 180 / Real.pi|
  if angle > 180 then 360 - angle else angle

/-! ## Gate lemmas -/

theorem tryCount_of_reject (m : ExerciseMetrics) (last now cd : ℚ)
    (h : ¬(now - last > cd)) : tryCount m last now cd = (m, last) := by
  simp only [tryCount, if_neg h]

theorem tryCount_accept_reps (m : ExerciseMetrics) (last now cd : ℚ)
    (h : now - last > cd) :
    (tryCount m last now cd).1.reps = m.reps + 1 ∧
    (tryCount m last now cd).2 = now := by
  simp only [tryCount, if_pos h]
  exact ⟨trivial, trivial⟩

theorem tryCount_reps_le (m : ExerciseMetrics) (last now cd : ℚ) :
    (tryCount m last now cd).1.reps ≤ m.reps + 1 := by
  simp only [tryCount]
  split_ifs <;> simp

theorem tryCount_counts (m : ExerciseMetrics) (last now cd : ℚ)
    (h : m.goodReps ≤ m.reps) :
    (tryCount m last now cd).1.goodReps ≤ (tryCount m last now cd).1.reps := by
  simp only [tryCount]
  split_ifs <;> simp <;> omega

theorem tryCount_feedback (m : ExerciseMetrics) (last now cd : ℚ) :
    (tryCount m last now cd).1.feedback = m.feedback ∨
    (tryCount m last now cd).1.feedback = ["Good form!"] := by
  simp only [tryCount]
  split_ifs <;> simp

/-! ## Count preservation by each processor -/

theorem nextBicepCurl_counts (a : ℚ) (m : ExerciseMetrics) (l t : ℚ)
    (h : m.goodReps ≤ m.reps) :
    (nextBicepCurl a m l t).1.goodReps ≤ (nextBicepCurl a m l t).1.reps := by
  simp only [nextBicepCurl, tryCount]
  split_ifs <;> simp_all <;> omega

theorem nextSquats_counts (a : ℚ) (m : ExerciseMetrics) (l t : ℚ)
    (h : m.goodReps ≤ m.reps) :
    (nextSquats a m l t).1.goodReps ≤ (nextSquats a m l t).1.reps := by
  simp only [nextSquats, tryCount]
  split_ifs <;> simp_all <;> omega

theorem nextPushups_counts (a b : ℚ) (m : ExerciseMetrics) (l t : ℚ)
    (h : m.goodReps ≤ m.reps) :
    (nextPushups a b m l t).1.goodReps ≤ (nextPushups a b m l t).1.reps := by
  simp only [nextPushups, tryCount]
  split_ifs <;> simp_all <;> omega

theorem nextLunges_counts (a b : ℚ) (m : ExerciseMetrics) (l t : ℚ)
    (h : m.goodReps ≤ m.reps) :
    (nextLunges a b m l t).1.goodReps ≤ (nextLunges a b m l t).1.reps := by
  simp only [nextLunges, tryCount]
  split_ifs <;> simp_all <;> omega

theorem nextOverheadPress_counts (a : ℚ) (m : ExerciseMetrics) (l t : ℚ)
    (h : m.goodReps ≤ m.reps) :
    (nextOverheadPress a m l t).1.goodReps ≤
      (nextOverheadPress a m l t).1.reps := by
  simp only [nextOverheadPress, tryCount]
  split_ifs <;> simp_all <;> omega

theorem nextLateralRaises_counts (a b : ℚ) (m : ExerciseMetrics) (l t : ℚ)
    (h : m.goodReps ≤ m.reps) :
    (nextLateralRaises a b m l t).1.goodReps ≤
      (nextLateralRaises a b m l t).1.reps := by
  simp only [nextLateralRaises, tryCount]
  split_ifs <;> simp_all <;> omega

theorem nextPullups_counts (w y : ℚ) (m : ExerciseMetrics) (l t : ℚ)
    (h : m.goodReps ≤ m.reps) :
    (nextPullups w y m l t).1.goodReps ≤ (nextPullups w y m l t).1.reps := by
  simp only [nextPullups, tryCount]
  split_ifs <;> simp_all <;> omega

theorem nextGluteBridges_counts (a : ℚ) (m : ExerciseMetrics) (l t : ℚ)
    (h : m.goodReps ≤ m.reps) :
    (nextGluteBridges a m l t).1.goodReps ≤
      (nextGluteBridges a m l t).1.reps := by
  simp only [nextGluteBridges, tryCount]
  split_ifs <;> simp_all <;> omega

theorem nextCrunches_counts (a : ℚ) (m : ExerciseMetrics) (l t : ℚ)
    (h : m.goodReps ≤ m.reps) :
    (nextCrunches a m l t).1.goodReps ≤ (nextCrunches a m l t).1.reps := by
  simp only [nextCrunches, tryCount]
  split_ifs <;> simp_all <;> omega

theorem applyProcessor_counts (ex : ExerciseId) (f : FrameInputs)
    (s : ExerciseMetrics × ℚ) (now : ℚ) (h : s.1.goodReps ≤ s.1.reps) :
    (applyProcessor ex f s now).1.goodReps ≤
      (applyProcessor ex f s now).1.reps := by
  cases ex with
  | bicep_curl => exact nextBicepCurl_counts _ _ _ _ h
  | squats => exact nextSquats_counts _ _ _ _ h
  | pushups => exact nextPushups_counts _ _ _ _ _ h
  | lunges => exact nextLunges_counts _ _ _ _ _ h
  | overhead_press => exact nextOverheadPress_counts _ _ _ _ h
  | lateral_raises => exact nextLateralRaises_counts _ _ _ _ _ h
  | pullups => exact nextPullups_counts _ _ _ _ _ h
  | glute_bridges => exact nextGluteBridges_counts _ _ _ _ h
  | crunches => exact nextCrunches_counts _ _ _ _ h
  | plank =>
      simp only [applyProcessor, nextPlank]
      split_ifs <;> simpa using h

/-- Claim C1: every session state reachable from the all-zero initial
state by any sequence of frame updates by any exercise processor
satisfies `0 ≤ goodRepCount ≤ repCount` (`goodReps ≤ reps` in the source;
both counters are naturals, so non-negativity is inherent). -/
theorem C1_invariant_goodReps_le_reps (s : ExerciseMetrics × ℚ)
    (h : Reachable s) : 0 ≤ s.1.goodReps ∧ s.1.goodReps ≤ s.1.reps := by
  refine ⟨Nat.zero_le _, ?_⟩
  unfold Reachable at h
  induction h with
  | refl => simp [initialSession, baseMetrics]
  | tail _ h2 ih =>
      cases h2 with
      | step ex f now => exact applyProcessor_counts ex f _ now ih

/-- Witness for C1 at a concrete reachable state: one bicep-curl frame
with combined elbow angle 170 at t = 5 ms applied to the initial state. -/
theorem C1_invariant_goodReps_le_reps_witness :
    0 ≤ (applyProcessor ExerciseId.bicep_curl
        { elbowL := 170, elbowR := 170, kneeL := 0, kneeR := 0,
          shoulderL := 0, shoulderR := 0, hipL := 0, hipR := 0,
          body := 0, wristY := 0, shoulderY := 0 }
        initialSession 5).1.goodReps ∧
    (applyProcessor ExerciseId.bicep_curl
        { elbowL := 170, elbowR := 170, kneeL := 0, kneeR := 0,
          shoulderL := 0, shoulderR := 0, hipL := 0, hipR := 0,
          body := 0, wristY := 0, shoulderY := 0 }
        initialSession 5).1.goodReps ≤
      (applyProcessor ExerciseId.bicep_curl
        { elbowL := 170, elbowR := 170, kneeL := 0, kneeR := 0,
          shoulderL := 0, shoulderR := 0, hipL := 0, hipR := 0,
          body := 0, wristY := 0, shoulderY := 0 }
        initialSession 5).1.reps :=
  C1_invariant_goodReps_le_reps _
    (Relation.ReflTransGen.single
      (ProcStep.step initialSession ExerciseId.bicep_curl _ 5))

/-! ## In-band frames cross no relaxed threshold -/

theorem nextBicepCurl_band (a : ℚ) (m : ExerciseMetrics) (l t : ℚ)
    (h1 : 50 < a) (h2 : a < 150) : nextBicepCurl a m l t = (m, l) := by
  have hc : ¬(m.stage = Stage.down ∧ a < 50) := fun hh => absurd hh.2 (by linarith)
  have he : ¬(a > 150) := by linarith
  simp only [nextBicepCurl, if_neg hc, if_neg he]

theorem nextSquats_band (a : ℚ) (m : ExerciseMetrics) (l t : ℚ)
    (h1 : 120 < a) (h2 : a < 160) : nextSquats a m l t = (m, l) := by
  have hc : ¬(m.stage = Stage.up ∧ a < 120) := fun hh => absurd hh.2 (by linarith)
  have he : ¬(a > 160) := by linarith
  simp only [nextSquats, if_neg hc, if_neg he]

theorem nextPushups_band (a b : ℚ) (m : ExerciseMetrics) (l t : ℚ)
    (h1 : 110 < a) (h2 : a < 150) :
    (nextPushups a b m l t).1.reps = m.reps ∧
    (nextPushups a b m l t).1.goodReps = m.goodReps := by
  have hc : ¬(m.stage = Stage.up ∧ a < 110) := fun hh => absurd hh.2 (by linarith)
  have he : ¬(a > 150) := by linarith
  simp only [nextPushups, if_neg hc, if_neg he]
  split_ifs <;> exact ⟨rfl, rfl⟩

theorem nextLunges_band (a b : ℚ) (m : ExerciseMetrics) (l t : ℚ)
    (h1 : 120 < a) (h2 : a < 150) (h3 : 120 < b) :
    nextLunges a b m l t = (m, l) := by
  have hc : ¬(m.stage = Stage.up ∧ (a < 120 ∨ b < 120)) := by
    rintro ⟨-, hh | hh⟩ <;> linarith
  have he : ¬(a > 150 ∧ b > 150) := fun hh => absurd hh.1 (by linarith)
  simp only [nextLunges, if_neg hc, if_neg he]

theorem nextOverheadPress_band (a : ℚ) (m : ExerciseMetrics) (l t : ℚ)
    (h1 : 110 < a) (h2 : a < 140) : nextOverheadPress a m l t = (m, l) := by
  have hc : ¬(m.stage = Stage.down ∧ a > 140) := fun hh => absurd hh.2 (by linarith)
  have he : ¬(a < 110) := by linarith
  simp only [nextOverheadPress, if_neg hc, if_neg he]

theorem nextLateralRaises_band (a b : ℚ) (m : ExerciseMetrics) (l t : ℚ)
    (h1 : 40 < a) (h2 : a < 60) :
    (nextLateralRaises a b m l t).1.reps = m.reps ∧
    (nextLateralRaises a b m l t).1.goodReps = m.goodReps := by
  have hc : ¬(m.stage = Stage.down ∧ a > 60) := fun hh => absurd hh.2 (by linarith)
  have he : ¬(a < 40) := by linarith
  simp only [nextLateralRaises, if_neg hc, if_neg he]
  split_ifs <;> exact ⟨rfl, rfl⟩

theorem nextGluteBridges_band (a : ℚ) (m : ExerciseMetrics) (l t : ℚ)
    (h1 : 140 < a) (h2 : a < 150) : nextGluteBridges a m l t = (m, l) := by
  have hc : ¬(m.stage = Stage.down ∧ a > 150) := fun hh => absurd hh.2 (by linarith)
  have he : ¬(a < 140) := by linarith
  simp only [nextGluteBridges, if_neg hc, if_neg he]

theorem nextCrunches_band (a : ℚ) (m : ExerciseMetrics) (l t : ℚ)
    (h1 : 110 < a) (h2 : a < 115) : nextCrunches a m l t = (m, l) := by
  have hc : ¬(m.stage = Stage.down ∧ a < 110) := fun hh => absurd hh.2 (by linarith)
  have he : ¬(a > 115) := by linarith
  simp only [nextCrunches, if_neg hc, if_neg he]

/-- Claim C4: a frame sequence whose combined angle stays strictly between
the two relaxed thresholds of its dynamic-exercise processor, never
crossing the opposite relaxed threshold, produces zero repetitions:
`reps` and `goodReps` keep their starting values after (hence, by
transitivity, throughout) the sequence. -/
theorem C4_band_oscillation_zero_reps (s s' : ExerciseMetrics × ℚ)
    (h : Relation.ReflTransGen BandStep s s') :
    s'.1.reps = s.1.reps ∧ s'.1.goodReps = s.1.goodReps := by
  induction h with
  | refl => exact ⟨rfl, rfl⟩
  | tail _ h2 ih =>
      cases h2 with
      | bicep a now h1 h2 =>
          rw [nextBicepCurl_band a _ _ now h1 h2]; exact ih
      | squats a now h1 h2 =>
          rw [nextSquats_band a _ _ now h1 h2]; exact ih
      | pushups a b now h1 h2 =>
          obtain ⟨e1, e2⟩ := nextPushups_band a b _ _ now h1 h2
          exact ⟨e1.trans ih.1, e2.trans ih.2⟩
      | lunges a b now h1 h2 h3 _h4 =>
          rw [nextLunges_band a b _ _ now h1 h2 h3]; exact ih
      | overhead a now h1 h2 =>
          rw [nextOverheadPress_band a _ _ now h1 h2]; exact ih
      | lateral a b now h1 h2 =>
          obtain ⟨e1, e2⟩ := nextLateralRaises_band a b _ _ now h1 h2
          exact ⟨e1.trans ih.1, e2.trans ih.2⟩
      | pullups w y now h1 h2 => exact absurd h2 (lt_asymm h1)
      | glute a now h1 h2 =>
          rw [nextGluteBridges_band a _ _ now h1 h2]; exact ih
      | crunches a now h1 h2 =>
          rw [nextCrunches_band a _ _ now h1 h2]; exact ih

/-- Witness for C4: a single bicep-curl frame at combined elbow angle 100°
(strictly between the exit threshold 50° and the enter threshold 150°)
leaves both counters at the initial state's values. -/
theorem C4_band_oscillation_zero_reps_witness :
    (nextBicepCurl 100 initialSession.1 initialSession.2 7).1.reps =
      initialSession.1.reps ∧
    (nextBicepCurl 100 initialSession.1 initialSession.2 7).1.goodReps =
      initialSession.1.goodReps :=
  C4_band_oscillation_zero_reps initialSession _
    (Relation.ReflTransGen.single
      (BandStep.bicep initialSession 100 7 (by norm_num) (by norm_num)))

/-! ## Cooldown gate claims -/

/-- Counterexample to claim C2 as stated: two candidate repetitions 100 ms
apart (at t = 100 and t = 200, both within the 350 ms default cooldown of
a fresh session whose `lastRepAt` is 0) are BOTH rejected, so zero — not
exactly one — repetitions are counted. -/
theorem C2_cooldown_exactly_one_cex :
    (200 : ℚ) - 100 < 350 ∧
    (tryCount baseMetrics 0 100 350).1.reps = 0 ∧
    (tryCount (tryCount baseMetrics 0 100 350).1
      (tryCount baseMetrics 0 100 350).2 200 350).1.reps = 0 := by
  norm_num [tryCount, baseMetrics]

/-- Claim C2 (amended): the gate accepts (increments `reps`) iff
`now - lastAcceptedAt > cooldownMs`; on rejection the metrics — with the
stage and flags as already mutated by the processor — and `lastAcceptedAt`
are returned exactly unchanged; and two candidate repetitions separated by
less than the cooldown produce AT MOST one count between them, regardless
of intervening non-candidate frames (which touch neither `reps` nor
`lastAcceptedAt`). -/
theorem C2_cooldown_gate :
    (∀ (m : ExerciseMetrics) (last now cd : ℚ),
        ((tryCount m last now cd).1.reps = m.reps + 1 ↔ now - last > cd)) ∧
    (∀ (m : ExerciseMetrics) (last now cd : ℚ),
        ¬(now - last > cd) → tryCount m last now cd = (m, last)) ∧
    (∀ (m0 m1 : ExerciseMetrics) (last t1 t2 cd : ℚ),
        t2 - t1 < cd →
        m1.reps = (tryCount m0 last t1 cd).1.reps →
        (tryCount m1 (tryCount m0 last t1 cd).2 t2 cd).1.reps ≤
          m0.reps + 1) := by
  refine ⟨?_, ?_, ?_⟩
  · intro m last now cd
    simp only [tryCount]
    split_ifs with h <;> simp [h]
  · intro m last now cd h
    exact tryCount_of_reject m last now cd h
  · intro m0 m1 last t1 t2 cd ht hm
    by_cases c1 : t1 - last > cd
    · obtain ⟨e1, e2⟩ := tryCount_accept_reps m0 last t1 cd c1
      rw [e2, tryCount_of_reject _ _ _ _ (by linarith)]
      rw [e1] at hm
      show m1.reps ≤ m0.reps + 1
      omega
    · rw [tryCount_of_reject _ _ _ _ c1] at hm ⊢
      have h2 : (tryCount m1 last t2 cd).1.reps ≤ m1.reps + 1 :=
        tryCount_reps_le m1 last t2 cd
      have hm' : m1.reps = m0.reps := hm
      show (tryCount m1 last t2 cd).1.reps ≤ m0.reps + 1
      omega

/-- Witness for C2: a candidate at t = 100 with `lastAcceptedAt = 0` and
cooldown 350 ms is rejected with the state unchanged. -/
theorem C2_cooldown_gate_witness :
    tryCount baseMetrics 0 100 350 = (baseMetrics, 0) :=
  C2_cooldown_gate.2.1 baseMetrics 0 100 350 (by norm_num)

/-! ## Bicep-curl concrete scenario -/

/-- Counterexample to claim C3 as stated: the frame sequence with combined
elbow angles [170°, 160°, 45° at t = 0, 170°, 35° at t = 400 ms] yields
`repCount = 1`, not 2 — the first candidate repetition arrives at t = 0,
and since `lastRepAt` is initialized to 0 the gate test `0 - 0 > 350`
fails, silently dropping it. -/
theorem C3_bicep_scenario_cex :
    (runBicep [(170, 0), (160, 0), (45, 0), (170, 200), (35, 400)]
      initialSession).1.reps = 1 ∧
    ¬((runBicep [(170, 0), (160, 0), (45, 0), (170, 200), (35, 400)]
      initialSession).1.reps = 2) := by
  norm_num [runBicep, nextBicepCurl, tryCount, initialSession, baseMetrics]

/-- Claim C3 (amended): with the first counted frame moved outside the
initial cooldown window — combined elbow angles [170°, 160°, 45° at
t = 400 ms, 170°, 35° at t = 800 ms] — the sequence yields `repCount = 2`
and `goodRepCount = 1`: the first rep exits at 45°, missing the strict
< 40° bound, the second at 35° meets it. -/
theorem C3_bicep_scenario_amended :
    (runBicep [(170, 0), (160, 0), (45, 400), (170, 600), (35, 800)]
      initialSession).1.reps = 2 ∧
    (runBicep [(170, 0), (160, 0), (45, 400), (170, 600), (35, 800)]
      initialSession).1.goodReps = 1 := by
  norm_num [runBicep, nextBicepCurl, tryCount, initialSession, baseMetrics]

/-! ## Feedback replacement -/

/-- Counterexample to claim C5 as stated: after the sequence of combined
elbow angles [170° at t = 0, 45° at t = 100, 170° at t = 200], the state
returned by the third frame still carries the advisory
"Curl a little higher." that the second frame produced, even though a
single 170° frame on a fresh state produces no feedback at all — the
processor copies `prev` and only overwrites `feedback` in the branches
that fire, so advisories from earlier frames are retained. -/
theorem C5_feedback_retained_cex :
    (runBicep [(170, 0), (45, 100), (170, 200)] initialSession).1.feedback =
      ["Curl a little higher."] ∧
    (nextBicepCurl 170 baseMetrics 0 200).1.feedback = [] := by
  norm_num [runBicep, nextBicepCurl, tryCount, initialSession, baseMetrics]

theorem nextBicepCurl_feedback_cases (a : ℚ) (m : ExerciseMetrics) (l t : ℚ) :
    (nextBicepCurl a m l t).1.feedback = m.feedback ∨
    (nextBicepCurl a m l t).1.feedback = ["Curl a little higher."] ∨
    (nextBicepCurl a m l t).1.feedback = ["Good form!"] := by
  simp only [nextBicepCurl, tryCount]
  split_ifs <;> simp

theorem nextSquats_feedback_cases (a : ℚ) (m : ExerciseMetrics) (l t : ℚ) :
    (nextSquats a m l t).1.feedback = m.feedback ∨
    (nextSquats a m l t).1.feedback = ["Go a bit deeper."] ∨
    (nextSquats a m l t).1.feedback = ["Good form!"] := by
  simp only [nextSquats, tryCount]
  split_ifs <;> simp

theorem nextPushups_feedback_cases (a b : ℚ) (m : ExerciseMetrics) (l t : ℚ) :
    (nextPushups a b m l t).1.feedback = m.feedback ∨
    (nextPushups a b m l t).1.feedback = ["Keep your body straight!"] ∨
    (nextPushups a b m l t).1.feedback = ["Go a bit lower."] ∨
    (nextPushups a b m l t).1.feedback = ["Good form!"] := by
  simp only [nextPushups, tryCount]
  split_ifs <;> simp

theorem nextLunges_feedback_cases (a b : ℚ) (m : ExerciseMetrics) (l t : ℚ) :
    (nextLunges a b m l t).1.feedback = m.feedback ∨
    (nextLunges a b m l t).1.feedback = ["Lower your hips."] ∨
    (nextLunges a b m l t).1.feedback = ["Good form!"] := by
  simp only [nextLunges, tryCount]
  split_ifs <;> simp

theorem nextOverheadPress_feedback_cases (a : ℚ) (m : ExerciseMetrics)
    (l t : ℚ) :
    (nextOverheadPress a m l t).1.feedback = m.feedback ∨
    (nextOverheadPress a m l t).1.feedback = ["Extend arms fully!"] ∨
    (nextOverheadPress a m l t).1.feedback = ["Good form!"] := by
  simp only [nextOverheadPress, tryCount]
  split_ifs <;> simp

theorem nextLateralRaises_feedback_cases (a b : ℚ) (m : ExerciseMetrics)
    (l t : ℚ) :
    (nextLateralRaises a b m l t).1.feedback = m.feedback ∨
    (nextLateralRaises a b m l t).1.feedback = ["Keep arms straighter!"] ∨
    (nextLateralRaises a b m l t).1.feedback = ["Raise a little higher."] ∨
    (nextLateralRaises a b m l t).1.feedback = ["Good form!"] := by
  simp only [nextLateralRaises, tryCount]
  split_ifs <;> simp

theorem nextPullups_feedback_cases (w y : ℚ) (m : ExerciseMetrics) (l t : ℚ) :
    (nextPullups w y m l t).1.feedback = m.feedback ∨
    (nextPullups w y m l t).1.feedback = ["Pull higher!"] ∨
    (nextPullups w y m l t).1.feedback = ["Good form!"] := by
  simp only [nextPullups, tryCount]
  split_ifs <;> simp

theorem nextGluteBridges_feedback_cases (a : ℚ) (m : ExerciseMetrics)
    (l t : ℚ) :
    (nextGluteBridges a m l t).1.feedback = m.feedback ∨
    (nextGluteBridges a m l t).1.feedback = ["Extend your hips fully."] ∨
    (nextGluteBridges a m l t).1.feedback = ["Good form!"] := by
  simp only [nextGluteBridges, tryCount]
  split_ifs <;> simp

theorem nextCrunches_feedback_cases (a : ℚ) (m : ExerciseMetrics) (l t : ℚ) :
    (nextCrunches a m l t).1.feedback = m.feedback ∨
    (nextCrunches a m l t).1.feedback = ["Crunch a little higher."] ∨
    (nextCrunches a m l t).1.feedback = ["Good form!"] := by
  simp only [nextCrunches, tryCount]
  split_ifs <;> simp

theorem nextPlank_feedback_cases (b : ℚ) (m : ExerciseMetrics) :
    (nextPlank b m).feedback = ["Good form! Hold it."] ∨
    (nextPlank b m).feedback = ["Straighten your back!"] := by
  simp only [nextPlank]
  split_ifs <;> simp

/-- Claim C5 (amended): on every processor update the feedback list is
only ever overwritten wholesale with that frame's message — it is never
appended to and never accumulates — but a frame that triggers no
feedback-writing branch retains the previous feedback list unchanged
rather than clearing it.  Concretely, each processor's output feedback is
either the input feedback or one of that processor's fixed one-element
messages (the isometric plank processor writes a fresh message on every
frame). -/
theorem C5_feedback_replaced_not_appended :
    (∀ (a : ℚ) (m : ExerciseMetrics) (l t : ℚ),
        (nextBicepCurl a m l t).1.feedback = m.feedback ∨
        (nextBicepCurl a m l t).1.feedback = ["Curl a little higher."] ∨
        (nextBicepCurl a m l t).1.feedback = ["Good form!"]) ∧
    (∀ (a : ℚ) (m : ExerciseMetrics) (l t : ℚ),
        (nextSquats a m l t).1.feedback = m.feedback ∨
        (nextSquats a m l t).1.feedback = ["Go a bit deeper."] ∨
        (nextSquats a m l t).1.feedback = ["Good form!"]) ∧
    (∀ (a b : ℚ) (m : ExerciseMetrics) (l t : ℚ),
        (nextPushups a b m l t).1.feedback = m.feedback ∨
        (nextPushups a b m l t).1.feedback = ["Keep your body straight!"] ∨
        (nextPushups a b m l t).1.feedback = ["Go a bit lower."] ∨
        (nextPushups a b m l t).1.feedback = ["Good form!"]) ∧
    (∀ (a b : ℚ) (m : ExerciseMetrics) (l t : ℚ),
        (nextLunges a b m l t).1.feedback = m.feedback ∨
        (nextLunges a b m l t).1.feedback = ["Lower your hips."] ∨
        (nextLunges a b m l t).1.feedback = ["Good form!"]) ∧
    (∀ (a : ℚ) (m : ExerciseMetrics) (l t : ℚ),
        (nextOverheadPress a m l t).1.feedback = m.feedback ∨
        (nextOverheadPress a m l t).1.feedback = ["Extend arms fully!"] ∨
        (nextOverheadPress a m l t).1.feedback = ["Good form!"]) ∧
    (∀ (a b : ℚ) (m : ExerciseMetrics) (l t : ℚ),
        (nextLateralRaises a b m l t).1.feedback = m.feedback ∨
        (nextLateralRaises a b m l t).1.feedback = ["Keep arms straighter!"] ∨
        (nextLateralRaises a b m l t).1.feedback = ["Raise a little higher."] ∨
        (nextLateralRaises a b m l t).1.feedback = ["Good form!"]) ∧
    (∀ (w y : ℚ) (m : ExerciseMetrics) (l t : ℚ),
        (nextPullups w y m l t).1.feedback = m.feedback ∨
        (nextPullups w y m l t).1.feedback = ["Pull higher!"] ∨
        (nextPullups w y m l t).1.feedback = ["Good form!"]) ∧
    (∀ (a : ℚ) (m : ExerciseMetrics) (l t : ℚ),
        (nextGluteBridges a m l t).1.feedback = m.feedback ∨
        (nextGluteBridges a m l t).1.feedback = ["Extend your hips fully."] ∨
        (nextGluteBridges a m l t).1.feedback = ["Good form!"]) ∧
    (∀ (a : ℚ) (m : ExerciseMetrics) (l t : ℚ),
        (nextCrunches a m l t).1.feedback = m.feedback ∨
        (nextCrunches a m l t).1.feedback = ["Crunch a little higher."] ∨
        (nextCrunches a m l t).1.feedback = ["Good form!"]) ∧
    (∀ (b : ℚ) (m : ExerciseMetrics),
        (nextPlank b m).feedback = ["Good form! Hold it."] ∨
        (nextPlank b m).feedback = ["Straighten your back!"]) :=
  ⟨nextBicepCurl_feedback_cases, nextSquats_feedback_cases,
   nextPushups_feedback_cases, nextLunges_feedback_cases,
   nextOverheadPress_feedback_cases, nextLateralRaises_feedback_cases,
   nextPullups_feedback_cases, nextGluteBridges_feedback_cases,
   nextCrunches_feedback_cases, nextPlank_feedback_cases⟩

/-! ## Push-up posture precondition -/

/-- Claim C6: on any push-up frame whose shoulder-hip-ankle body angle
falls outside the 155°-205° tolerance band, the `isBackStraight` flag is
forced false, a corrective advisory is emitted on that same frame (the
posture advisory, or the depth advisory if a downward crossing also
happens and overwrites it), and a downward relaxed-threshold crossing on
that frame does not increment `reps` or `goodReps` and does not update
`lastAcceptedAt` — the posture violation blocks counting. -/
theorem C6_pushups_posture_blocks_count (e b : ℚ) (m : ExerciseMetrics)
    (l t : ℚ) (h : b < 155 ∨ b > 205) :
    (nextPushups e b m l t).1.formFlags.isBackStraight = false ∧
    ((nextPushups e b m l t).1.feedback = ["Keep your body straight!"] ∨
     (nextPushups e b m l t).1.feedback = ["Go a bit lower."]) ∧
    (nextPushups e b m l t).1.reps = m.reps ∧
    (nextPushups e b m l t).1.goodReps = m.goodReps ∧
    (nextPushups e b m l t).2 = l := by
  simp only [nextPushups, if_pos h]
  split_ifs <;> simp_all

/-- Witness for C6: a push-up frame at elbow angle 105° (a downward
relaxed-threshold crossing from stage `up`) with body angle 150° is
blocked: no count, flag forced false, advisory emitted. -/
theorem C6_pushups_posture_blocks_count_witness :
    (nextPushups 105 150 { baseMetrics with stage := Stage.up }
        0 1000).1.formFlags.isBackStraight = false ∧
    ((nextPushups 105 150 { baseMetrics with stage := Stage.up }
        0 1000).1.feedback = ["Keep your body straight!"] ∨
     (nextPushups 105 150 { baseMetrics with stage := Stage.up }
        0 1000).1.feedback = ["Go a bit lower."]) ∧
    (nextPushups 105 150 { baseMetrics with stage := Stage.up }
        0 1000).1.reps = { baseMetrics with stage := Stage.up }.reps ∧
    (nextPushups 105 150 { baseMetrics with stage := Stage.up }
        0 1000).1.goodReps =
      { baseMetrics with stage := Stage.up }.goodReps ∧
    (nextPushups 105 150 { baseMetrics with stage := Stage.up }
        0 1000).2 = 0 :=
  C6_pushups_posture_blocks_count 105 150 _ 0 1000 (Or.inl (by norm_num))

/-! ## No-detection frames -/

/-- Claim C7: a frame carrying no landmarks is a no-op on the
classification state: the update loop returns the session state exactly
unchanged (so `reps`, `goodReps`, `stage` and the rest are untouched),
whatever the active flag, selected exercise, state, and time. -/
theorem C7_no_landmarks_noop (active : Bool) (selected : Option ExerciseId)
    (s : ExerciseMetrics × ℚ) (now : ℚ) :
    onPoseResults active selected none s now = s := rfl

/-! ## Isometric plank processor -/

/-- Claim C8: the plank processor sets `isTimerRunning` to true with the
affirmative message on every frame whose body angle lies strictly inside
the 155°-205° band, sets it to false with the corrective message on every
other frame, never changes `reps` or `goodReps`, never touches
`lastAcceptedAt`, and on the angle sequence [180°, 210°, 170°] yields the
`isTimerRunning` sequence [true, false, true]. -/
theorem C8_plank_hold_gate (b : ℚ) (m : ExerciseMetrics) :
    (155 < b ∧ b < 205 →
      (nextPlank b m).isTimerRunning = true ∧
      (nextPlank b m).feedback = ["Good form! Hold it."]) ∧
    (¬(155 < b ∧ b < 205) →
      (nextPlank b m).isTimerRunning = false ∧
      (nextPlank b m).feedback = ["Straighten your back!"]) ∧
    (nextPlank b m).reps = m.reps ∧
    (nextPlank b m).goodReps = m.goodReps ∧
    (∀ (f : FrameInputs) (s : ExerciseMetrics × ℚ) (now : ℚ),
      (applyProcessor ExerciseId.plank f s now).2 = s.2) ∧
    (nextPlank 180 baseMetrics).isTimerRunning = true ∧
    (nextPlank 210 (nextPlank 180 baseMetrics)).isTimerRunning = false ∧
    (nextPlank 170 (nextPlank 210 (nextPlank 180 baseMetrics))).isTimerRunning
      = true := by
  refine ⟨?_, ?_, ?_, ?_, fun f s now => rfl, ?_, ?_, ?_⟩ <;>
    first
      | (intro h; simp [nextPlank, h])
      | (simp only [nextPlank]; split_ifs <;> rfl)
      | norm_num [nextPlank]

/-- Witness for C8 at body angle 180° on the base metrics. -/
theorem C8_plank_hold_gate_witness :
    (nextPlank 180 baseMetrics).isTimerRunning = true ∧
    (nextPlank 180 baseMetrics).feedback = ["Good form! Hold it."] :=
  (C8_plank_hold_gate 180 baseMetrics).1 (by norm_num)

/-! ## First-candidate edge of the cooldown gate -/

/-- Claim C10: because `lastRepAt` starts at 0 (at session creation and
after `resetWorkout`), the first candidate repetition is accepted iff its
timestamp exceeds the cooldown: a first candidate at `now ≤ cooldownMs`
is silently dropped — state and timestamp unchanged — even though no
repetition was ever accepted before it. -/
theorem C10_first_candidate_edge :
    (∀ (m : ExerciseMetrics) (now cd : ℚ),
        ((tryCount m 0 now cd).1.reps = m.reps + 1 ↔ now > cd)) ∧
    (∀ (m : ExerciseMetrics) (now cd : ℚ),
        now ≤ cd → tryCount m 0 now cd = (m, 0)) ∧
    initialSession.2 = 0 ∧ resetWorkout.2 = 0 := by
  refine ⟨?_, ?_, rfl, rfl⟩
  · intro m now cd
    simp only [tryCount, sub_zero]
    split_ifs with h <;> simp [h]
  · intro m now cd h
    exact tryCount_of_reject m 0 now cd (by simpa using not_lt.mpr h)

/-- Witness for C10: a first candidate at t = 300 ms with the default
350 ms cooldown is dropped with nothing recorded. -/
theorem C10_first_candidate_edge_witness :
    tryCount baseMetrics 0 300 350 = (baseMetrics, 0) :=
  C10_first_candidate_edge.2.1 baseMetrics 300 350 (by norm_num)

/-! ## Geometry utility -/

theorem atan2_abs_le (y x : ℝ) : |atan2 y x| ≤ Real.pi :=
  Complex.abs_arg_le_pi _

/-- Claim C9: `calculateAngle` computes the absolute difference of the
two ray directions in degrees folded into `[0, 180]`; its result always
lies in `[0, 180]`, and degenerate coincident inputs (third point equal
to the first, or all three points equal, where `atan2` sees zero-length
vectors) yield 0 rather than an error — the function is total and pure by
construction. -/
theorem C9_calculateAngle_range_degenerate :
    (∀ a b c : ℝ × ℝ,
        0 ≤ calculateAngle a b c ∧ calculateAngle a b c ≤ 180) ∧
    (∀ p q : ℝ × ℝ, calculateAngle p q p = 0) ∧
    (∀ p : ℝ × ℝ, calculateAngle p p p = 0) := by
  have hpi : (0 : ℝ) < Real.pi := Real.pi_pos
  have hdeg : ∀ p q : ℝ × ℝ, calculateAngle p q p = 0 := by
    intro p q
    simp [calculateAngle, sub_self]
  refine ⟨?_, hdeg, fun p => hdeg p p⟩
  intro a b c
  simp only [calculateAngle]
  set x := atan2 (c.2 - b.2) (c.1 - b.1) with hx
  set y := atan2 (a.2 - b.2) (a.1 - b.1) with hy
  have hxb : |x| ≤ Real.pi := atan2_abs_le _ _
  have hyb : |y| ≤ Real.pi := atan2_abs_le _ _
  have hsub : |x - y| ≤ 2 * Real.pi := by
    have := abs_sub x y
    linarith
  have habs : |(x - y) * 180 / Real.pi| = |x - y| * 180 / Real.pi := by
    rw [abs_div, abs_mul, abs_of_pos hpi]
    norm_num
  have hA0 : (0 : ℝ) ≤ |(x - y) * 180 / Real.pi| := abs_nonneg _
  have hA : |(x - y) * 180 / Real.pi| ≤ 360 := by
    rw [habs, div_le_iff₀ hpi]
    linarith
  split_ifs with hgt
  · constructor <;> linarith
  · exact ⟨hA0, by linarith⟩

end FitHub
